import Mathlib

/-!
Shallow embedding of the client-side call-sentiment aggregation and
filtering pipeline of the call-sense repository.

Sources embedded:
* `getSentimentLevel`, `calculateCallStats` from `frontend/src/utils` (sentiment utilities);
* the `filteredCalls` predicate and the `stats` memo of the calls Dashboard component;
* the `sentimentData` reduce of the SentimentChart component.

JavaScript numbers are modelled as rationals (`ℚ`); the NaN behaviour of the
classifier is modelled separately by `JsNum`, where every comparison
involving NaN is false, as in JavaScript. Strings are lists of characters;
`String.prototype.includes` is `jsIncludes`, `toLowerCase` is `toLower`.
-/

namespace CallSense

/-- The three sentiment bands (`SentimentLevel` in `types/calls`). -/
inductive SentimentLevel where
  | positive
  | negative
  | neutral
  deriving DecidableEq

/-- A call record (`Call` in `types/calls`): the fields the pipeline reads,
with sentiment score as a rational. -/
structure Call where
  id : Nat
  created_at : Nat
  phone : List Char
  transcript : List Char
  sentiments : ℚ
  insights : List Char
  solved : Bool
  deriving DecidableEq

/-- Embeds `getSentimentLevel` from the sentiment utilities:
`score >= 0.2` is positive, `score <= -0.2` is negative, otherwise neutral. -/
def getSentimentLevel (score : ℚ) : SentimentLevel :=
  if score ≥ 0.2 then SentimentLevel.positive
  else if score ≤ -0.2 then SentimentLevel.negative
  else SentimentLevel.neutral

/-- A JavaScript number: either NaN or an actual (rational) value. -/
inductive JsNum where
  | nan : JsNum
  | val : ℚ → JsNum
  deriving DecidableEq

/-- JavaScript `>=`: false whenever either operand is NaN. -/
def jsGe (a b : JsNum) : Bool :=
  match a, b with
  | JsNum.val x, JsNum.val y => decide (x ≥ y)
  | _, _ => false

/-- JavaScript `<=`: false whenever either operand is NaN. -/
def jsLe (a b : JsNum) : Bool :=
  match a, b with
  | JsNum.val x, JsNum.val y => decide (x ≤ y)
  | _, _ => false

/-- `getSentimentLevel` over JavaScript numbers, NaN included, with the
comparison semantics of the source language. -/
def getSentimentLevelJs (score : JsNum) : SentimentLevel :=
  if jsGe score (JsNum.val 0.2) then SentimentLevel.positive
  else if jsLe score (JsNum.val (-0.2)) then SentimentLevel.negative
  else SentimentLevel.neutral

/-- The `sentimentDistribution` record of `CallStats`. -/
structure SentimentDistribution where
  positive : Nat
  neutral : Nat
  negative : Nat
  deriving DecidableEq

/-- The `CallStats` record returned by `calculateCallStats`. -/
structure CallStats where
  total : Nat
  solved : Nat
  unsolved : Nat
  averageSentiment : ℚ
  sentimentDistribution : SentimentDistribution
  deriving DecidableEq

/-- One step of the `calls.reduce` building `sentimentDistribution` in
`calculateCallStats`: `acc[level]++`. -/
def bump (acc : SentimentDistribution) (level : SentimentLevel) : SentimentDistribution :=
  match level with
  | SentimentLevel.positive => { acc with positive := acc.positive + 1 }
  | SentimentLevel.neutral => { acc with neutral := acc.neutral + 1 }
  | SentimentLevel.negative => { acc with negative := acc.negative + 1 }

/-- Embeds `calculateCallStats` from the sentiment utilities, including its
early return on the empty array. -/
def calculateCallStats (calls : List Call) : CallStats :=
  if calls.length = 0 then
    { total := 0
      solved := 0
      unsolved := 0
      averageSentiment := 0
      sentimentDistribution := { positive := 0, neutral := 0, negative := 0 } }
  else
    let solved := (calls.filter fun call => call.solved).length
    let unsolved := calls.length - solved
    let averageSentiment :=
      (calls.foldl (fun sum call => sum + call.sentiments) 0) / (calls.length : ℚ)
    let sentimentDistribution :=
      calls.foldl (fun acc call => bump acc (getSentimentLevel call.sentiments))
        { positive := 0, neutral := 0, negative := 0 }
    { total := calls.length
      solved := solved
      unsolved := unsolved
      averageSentiment := averageSentiment
      sentimentDistribution := sentimentDistribution }

/-- The status filter of the Dashboard: `'all' | 'solved' | 'unsolved'`. -/
inductive StatusFilter where
  | all
  | solved
  | unsolved
  deriving DecidableEq

/-- The sentiment filter of the Dashboard:
`'all' | 'positive' | 'neutral' | 'negative'`. -/
inductive SentimentFilter where
  | all
  | positive
  | neutral
  | negative
  deriving DecidableEq

/-- `String.prototype.toLowerCase`, character by character. -/
def toLower (s : List Char) : List Char :=
  s.map Char.toLower

/-- `needle` occurs at the start of `hay` (helper for `jsIncludes`). -/
def matchAt : List Char → List Char → Bool
  | [], _ => true
  | _ :: _, [] => false
  | a :: as, b :: bs => a = b && matchAt as bs

/-- `hay.includes(needle)`: `needle` occurs as a contiguous substring of `hay`. -/
def jsIncludes (hay needle : List Char) : Bool :=
  match hay with
  | [] => needle.isEmpty
  | _ :: rest => matchAt needle hay || jsIncludes rest needle

/-- The band named by a sentiment-filter value, as compared by the source's
`callSentiment !== sentimentFilter` (both are the same strings there). -/
def levelToFilter : SentimentLevel → SentimentFilter
  | SentimentLevel.positive => SentimentFilter.positive
  | SentimentLevel.neutral => SentimentFilter.neutral
  | SentimentLevel.negative => SentimentFilter.negative

/-- The body of the `calls.filter` callback in the Dashboard's
`filteredCalls` memo: each `if ... return false` becomes one branch.
The guard `searchTerm ≠ []` is JavaScript truthiness of the search string;
the two status branches keep their `statusFilter !== 'all'` guard. -/
def callPasses (searchTerm : List Char) (statusFilter : StatusFilter)
    (sentimentFilter : SentimentFilter) (call : Call) : Bool :=
  if searchTerm ≠ [] ∧ jsIncludes (toLower call.phone) (toLower searchTerm) = false then
    false
  else if statusFilter ≠ StatusFilter.all ∧
      statusFilter = StatusFilter.solved ∧ call.solved = false then
    false
  else if statusFilter ≠ StatusFilter.all ∧
      statusFilter = StatusFilter.unsolved ∧ call.solved = true then
    false
  else if sentimentFilter ≠ SentimentFilter.all ∧
      levelToFilter (getSentimentLevel call.sentiments) ≠ sentimentFilter then
    false
  else
    true

/-- Embeds the Dashboard's `filteredCalls` memo: `calls.filter(call => ...)`. -/
def filteredCalls (calls : List Call) (searchTerm : List Char)
    (statusFilter : StatusFilter) (sentimentFilter : SentimentFilter) : List Call :=
  calls.filter (callPasses searchTerm statusFilter sentimentFilter)

/-- Embeds the Dashboard's `stats` memo:
`calculateCallStats(filteredCalls)`. -/
def dashboardStats (calls : List Call) (searchTerm : List Char)
    (statusFilter : StatusFilter) (sentimentFilter : SentimentFilter) : CallStats :=
  calculateCallStats (filteredCalls calls searchTerm statusFilter sentimentFilter)

/-- The accumulator of the SentimentChart's reduce: a JavaScript
`Record<string, number>` that starts empty, so each band's entry is
either absent (`none`) or a number. -/
structure JsDist where
  positive : Option Nat
  neutral : Option Nat
  negative : Option Nat
  deriving DecidableEq

/-- `x || 0` on an optional entry of the chart's record. -/
def orZero : Option Nat → Nat
  | none => 0
  | some n => n

/-- One step of the SentimentChart reduce:
`acc[level] = (acc[level] || 0) + 1`. -/
def jsBump (acc : JsDist) (level : SentimentLevel) : JsDist :=
  match level with
  | SentimentLevel.positive => { acc with positive := some (orZero acc.positive + 1) }
  | SentimentLevel.neutral => { acc with neutral := some (orZero acc.neutral + 1) }
  | SentimentLevel.negative => { acc with negative := some (orZero acc.negative + 1) }

/-- Embeds the SentimentChart's `sentimentData` memo: the reduce over
`getSentimentLevel` starting from `{}`, then the three chart values
`distribution.positive || 0`, `distribution.neutral || 0`,
`distribution.negative || 0` in that order. -/
def sentimentData (calls : List Call) : Nat × Nat × Nat :=
  let distribution :=
    calls.foldl (fun acc call => jsBump acc (getSentimentLevel call.sentiments))
      { positive := none, neutral := none, negative := none }
  (orZero distribution.positive, orZero distribution.neutral, orZero distribution.negative)

/-- The search criterion of the filter contract: empty search text, or the
lowercased search text occurs in the lowercased phone field. -/
def searchCriterion (searchTerm : List Char) (c : Call) : Prop :=
  searchTerm = [] ∨ jsIncludes (toLower c.phone) (toLower searchTerm) = true

/-- The resolution-status criterion of the filter contract. -/
def statusCriterion : StatusFilter → Call → Prop
  | StatusFilter.all, _ => True
  | StatusFilter.solved, c => c.solved = true
  | StatusFilter.unsolved, c => c.solved = false

/-- The sentiment-band criterion of the filter contract, via the classifier. -/
def sentimentCriterion : SentimentFilter → Call → Prop
  | SentimentFilter.all, _ => True
  | SentimentFilter.positive, c => getSentimentLevel c.sentiments = SentimentLevel.positive
  | SentimentFilter.neutral, c => getSentimentLevel c.sentiments = SentimentLevel.neutral
  | SentimentFilter.negative, c => getSentimentLevel c.sentiments = SentimentLevel.negative

theorem callPasses_eq_true_iff (s : List Char) (st : StatusFilter)
    (sf : SentimentFilter) (c : Call) :
    callPasses s st sf c = true ↔
      searchCriterion s c ∧ statusCriterion st c ∧ sentimentCriterion sf c := by
  unfold callPasses searchCriterion
  cases st <;> cases sf <;>
    cases hlv : getSentimentLevel c.sentiments <;>
    cases hb : c.solved <;>
    by_cases hT : s = [] <;>
    simp_all [statusCriterion, sentimentCriterion, levelToFilter]

theorem filteredCalls_empty_all (R : List Call) :
    filteredCalls R [] StatusFilter.all SentimentFilter.all = R := by
  unfold filteredCalls
  apply List.filter_eq_self.mpr
  intro c _
  simp [callPasses]

theorem dist_foldl_sum (calls : List Call) (acc : SentimentDistribution) :
    (calls.foldl (fun a call => bump a (getSentimentLevel call.sentiments)) acc).positive +
      (calls.foldl (fun a call => bump a (getSentimentLevel call.sentiments)) acc).neutral +
      (calls.foldl (fun a call => bump a (getSentimentLevel call.sentiments)) acc).negative =
      acc.positive + acc.neutral + acc.negative + calls.length := by
  induction calls generalizing acc with
  | nil => simp
  | cons c t ih =>
    simp only [List.foldl_cons, List.length_cons]
    rw [ih]
    cases hlv : getSentimentLevel c.sentiments <;> simp [bump] <;> omega

theorem calculateCallStats_total (R : List Call) :
    (calculateCallStats R).total = R.length := by
  unfold calculateCallStats
  split_ifs with h
  · simp [h]
  · rfl

theorem calculateCallStats_dist_sum (R : List Call) :
    (calculateCallStats R).sentimentDistribution.positive +
      (calculateCallStats R).sentimentDistribution.neutral +
      (calculateCallStats R).sentimentDistribution.negative =
      (calculateCallStats R).total := by
  unfold calculateCallStats
  split_ifs with h
  · rfl
  · simpa using dist_foldl_sum R ⟨0, 0, 0⟩

theorem jsDist_foldl_rel (calls : List Call) (a : JsDist) (b : SentimentDistribution)
    (hp : orZero a.positive = b.positive) (hn : orZero a.neutral = b.neutral)
    (hg : orZero a.negative = b.negative) :
    orZero ((calls.foldl (fun acc c => jsBump acc (getSentimentLevel c.sentiments)) a).positive) =
      (calls.foldl (fun acc c => bump acc (getSentimentLevel c.sentiments)) b).positive ∧
    orZero ((calls.foldl (fun acc c => jsBump acc (getSentimentLevel c.sentiments)) a).neutral) =
      (calls.foldl (fun acc c => bump acc (getSentimentLevel c.sentiments)) b).neutral ∧
    orZero ((calls.foldl (fun acc c => jsBump acc (getSentimentLevel c.sentiments)) a).negative) =
      (calls.foldl (fun acc c => bump acc (getSentimentLevel c.sentiments)) b).negative := by
  induction calls generalizing a b with
  | nil => exact ⟨hp, hn, hg⟩
  | cons c t ih =>
    simp only [List.foldl_cons]
    cases hlv : getSentimentLevel c.sentiments <;>
      exact ih _ _ (by simp only [jsBump, bump, orZero, ← hp, ← hn, ← hg])
        (by simp only [jsBump, bump, orZero, ← hp, ← hn, ← hg])
        (by simp only [jsBump, bump, orZero, ← hp, ← hn, ← hg])

/-- C1: `getSentimentLevel` returns exactly one band: positive iff the score
is at least 0.2, negative iff it is at most -0.2, neutral otherwise, and the
two boundary scores classify as positive resp. negative. -/
theorem C1_classifier_bands (s : ℚ) :
    (getSentimentLevel s = SentimentLevel.positive ↔ s ≥ 0.2) ∧
    (getSentimentLevel s = SentimentLevel.negative ↔ s ≤ -0.2) ∧
    (getSentimentLevel s = SentimentLevel.neutral ↔ ¬ s ≥ 0.2 ∧ ¬ s ≤ -0.2) ∧
    getSentimentLevel (0.2 : ℚ) = SentimentLevel.positive ∧
    getSentimentLevel (-0.2 : ℚ) = SentimentLevel.negative := by
  refine ⟨?_, ?_, ?_, by norm_num [getSentimentLevel], by norm_num [getSentimentLevel]⟩ <;>
    (unfold getSentimentLevel; split_ifs with h1 h2 <;> simp_all <;> linarith)

/-- C2: in `calculateCallStats R` the three `sentimentDistribution` counts sum
exactly to `total`, and `total` equals the length of `R`. -/
theorem C2_distribution_sums_to_total (R : List Call) :
    (calculateCallStats R).sentimentDistribution.positive +
      (calculateCallStats R).sentimentDistribution.neutral +
      (calculateCallStats R).sentimentDistribution.negative =
      (calculateCallStats R).total ∧
    (calculateCallStats R).total = R.length :=
  ⟨calculateCallStats_dist_sum R, calculateCallStats_total R⟩

/-- C3: `filteredCalls` is a stable filter: its output is a sublist of the
input (relative order preserved), and a record is in the output exactly when
it is in the input and satisfies the search, status, and sentiment criteria
simultaneously. -/
theorem C3_filter_is_conjunctive_and_stable (R : List Call) (s : List Char)
    (st : StatusFilter) (sf : SentimentFilter) :
    (filteredCalls R s st sf).Sublist R ∧
    ∀ c : Call, c ∈ filteredCalls R s st sf ↔
      c ∈ R ∧ searchCriterion s c ∧ statusCriterion st c ∧ sentimentCriterion sf c := by
  constructor
  · exact List.filter_sublist R
  · intro c
    rw [filteredCalls, List.mem_filter, callPasses_eq_true_iff]

/-- C4: the Dashboard's displayed statistics are `calculateCallStats` of the
filtered subsequence, so their `total` is the length of the filtered list,
not of the unfiltered input. -/
theorem C4_stats_computed_over_filtered (R : List Call) (s : List Char)
    (st : StatusFilter) (sf : SentimentFilter) :
    dashboardStats R s st sf = calculateCallStats (filteredCalls R s st sf) ∧
    (dashboardStats R s st sf).total = (filteredCalls R s st sf).length :=
  ⟨rfl, calculateCallStats_total (filteredCalls R s st sf)⟩

/-- C5: on the empty sequence `calculateCallStats` returns all-zero
statistics, with `averageSentiment` defined as 0. -/
theorem C5_empty_input_stats :
    calculateCallStats [] =
      { total := 0
        solved := 0
        unsolved := 0
        averageSentiment := 0
        sentimentDistribution := { positive := 0, neutral := 0, negative := 0 } } := rfl

/-- C9: the classifier is a total function: every rational score, also far
outside [-1, 1], is mapped to one of the three bands. -/
theorem C9_classifier_total (s : ℚ) :
    getSentimentLevel s = SentimentLevel.positive ∨
    getSentimentLevel s = SentimentLevel.negative ∨
    getSentimentLevel s = SentimentLevel.neutral := by
  unfold getSentimentLevel
  split_ifs <;> simp

/-- C10: the SentimentChart's independently computed per-band counts agree,
band by band, with the `sentimentDistribution` of `calculateCallStats` on the
same sequence. -/
theorem C10_chart_agrees_with_stats (R : List Call) :
    sentimentData R =
      ((calculateCallStats R).sentimentDistribution.positive,
       (calculateCallStats R).sentimentDistribution.neutral,
       (calculateCallStats R).sentimentDistribution.negative) := by
  have h := jsDist_foldl_rel R ⟨none, none, none⟩ ⟨0, 0, 0⟩ rfl rfl rfl
  unfold calculateCallStats sentimentData
  split_ifs with hlen
  · rcases List.length_eq_zero.mp hlen with rfl
    rfl
  · simp only [Prod.mk.injEq]
    exact ⟨h.1, h.2.1, h.2.2⟩

/-- C6 counterexample: a NaN sentiment score is not rejected anywhere; the
classifier silently returns neutral on it (both threshold comparisons are
false on NaN, as in the source language). -/
theorem C6_counterexample_nan_classified_neutral :
    getSentimentLevelJs JsNum.nan = SentimentLevel.neutral := rfl

/-- C6 amended: the code defines no InvalidInput error; on actual numbers
the NaN-aware classifier agrees with the rational one, and on NaN it
silently defaults to neutral instead of failing. -/
theorem C6_amended_nan_silently_neutral :
    (∀ q : ℚ, getSentimentLevelJs (JsNum.val q) = getSentimentLevel q) ∧
    getSentimentLevelJs JsNum.nan = SentimentLevel.neutral := by
  refine ⟨fun q => ?_, rfl⟩
  simp only [getSentimentLevelJs, getSentimentLevel, jsGe, jsLe, decide_eq_true_eq]

/-- A concrete record whose phone contains no whitespace. -/
def blankSearchCall : Call :=
  { id := 0, created_at := 0, phone := ['1'], transcript := [],
    sentiments := 1, insights := [], solved := true }

/-- C7 counterexample: a whitespace-only search text does not accept every
record: with search text a single space and both other filters `all`, a
record whose phone contains no space is filtered out. -/
theorem C7_counterexample_blank_search_filters :
    filteredCalls [blankSearchCall] [' '] StatusFilter.all SentimentFilter.all ≠
      [blankSearchCall] := by
  have h : filteredCalls [blankSearchCall] [' '] StatusFilter.all SentimentFilter.all = [] :=
    rfl
  rw [h]
  simp

/-- C7 amended: only the empty search text applies no filtering: with empty
search text every record passes the predicate, and filtering with both other
filters set to `all` returns the input unchanged; a whitespace-only search
text is treated as an ordinary substring pattern. -/
theorem C7_amended_empty_search_matches_all :
    (∀ c : Call, callPasses [] StatusFilter.all SentimentFilter.all c = true) ∧
    ∀ R : List Call, filteredCalls R [] StatusFilter.all SentimentFilter.all = R := by
  refine ⟨fun c => ?_, filteredCalls_empty_all⟩
  simp [callPasses]

/-- C8: the `all` value is a pass-through on the status and sentiment
dimensions, and filtering with empty search text and both filters `all` is
the identity on the record sequence. -/
theorem C8_allpass_filter_identity :
    (∀ c : Call, statusCriterion StatusFilter.all c ∧ sentimentCriterion SentimentFilter.all c) ∧
    ∀ R : List Call, filteredCalls R [] StatusFilter.all SentimentFilter.all = R :=
  ⟨fun _ => ⟨trivial, trivial⟩, filteredCalls_empty_all⟩

end CallSense
